import Mathlib

/-!
Verification of the rule-matching and response-rendering engine of a
configurable mock HTTP responder (`app/mock_server.py`).

The handler `mock_endpoint` iterates a list of route rules, picks the first
whose stripped path fragment is a substring of the request path and whose
upper-cased method equals the request method, optionally substitutes the
`{data}` placeholder with the string representation of the parsed request
body, and renders the response according to the rule's content type, with a
fixed 404 fallback when no rule matches.

Python values are embedded as `PyVal`; Python's `str`/`repr`, `str.strip`,
`str.upper`, substring containment (`in`) and the JSON serialization used by
`jsonify` are given as executable Lean functions.  `request.json` is modelled
as an `Option PyVal` (`none` meaning the body does not parse as JSON, in
which case the accessor raises `BadRequest`, surfacing here as
`Except.error`).
-/

/-- A Python value as produced by the YAML/JSON loaders: strings, integers,
booleans, `None`, lists, and insertion-ordered dicts with string keys.
(Numeric literals are modelled as integers.) -/
inductive PyVal where
  | str (s : String)
  | int (n : Int)
  | bool (b : Bool)
  | none
  | list (xs : List PyVal)
  | dict (kvs : List (String × PyVal))
deriving Repr

/-- Python `repr` of a string: the content between quotes, with backslashes,
the chosen quote character and common control characters escaped. -/
def pyReprStrBody (q : Char) (s : String) : List Char :=
  s.data.foldr (fun c acc =>
    if c == '\\' then '\\' :: '\\' :: acc
    else if c == q then '\\' :: q :: acc
    else if c == '\n' then '\\' :: 'n' :: acc
    else if c == '\r' then '\\' :: 'r' :: acc
    else if c == '\t' then '\\' :: 't' :: acc
    else c :: acc) []

/-- Python `repr` of a string: single quotes unless the string contains a
single quote and no double quote. -/
def pyReprStr (s : String) : String :=
  let q : Char := if s.data.contains '\'' && !(s.data.contains '"') then '"' else '\''
  String.mk (q :: pyReprStrBody q s ++ [q])

mutual
/-- Python `repr` of a value (`repr(v)`); for containers this is also what
`str` produces. -/
def pyRepr : PyVal → String
  | PyVal.str s => pyReprStr s
  | PyVal.int n => toString n
  | PyVal.bool b => if b then "True" else "False"
  | PyVal.none => "None"
  | PyVal.list xs => "[" ++ pyReprList xs ++ "]"
  | PyVal.dict kvs => "\x7b" ++ pyReprDict kvs ++ "\x7d"

/-- comma-separated `repr`s of list elements. -/
def pyReprList : List PyVal → String
  | [] => ""
  | [v] => pyRepr v
  | v :: rest => pyRepr v ++ ", " ++ pyReprList rest

/-- comma-separated `key: value` pairs of a dict's `repr`. -/
def pyReprDict : List (String × PyVal) → String
  | [] => ""
  | [(k, v)] => pyReprStr k ++ ": " ++ pyRepr v
  | (k, v) :: rest => pyReprStr k ++ ": " ++ pyRepr v ++ ", " ++ pyReprDict rest
end

/-- Python `str(v)`: like `repr`, except a top-level string is returned
verbatim. -/
def pyStr : PyVal → String
  | PyVal.str s => s
  | v => pyRepr v

/-- JSON string escaping as performed by `json.dumps`. -/
def jsonEscape (s : String) : String :=
  String.mk (s.data.foldr (fun c acc =>
    if c == '\\' then '\\' :: '\\' :: acc
    else if c == '"' then '\\' :: '"' :: acc
    else if c == '\n' then '\\' :: 'n' :: acc
    else if c == '\r' then '\\' :: 'r' :: acc
    else if c == '\t' then '\\' :: 't' :: acc
    else c :: acc) [])

/-- A JSON string literal: the escaped content wrapped in double quotes. -/
def jsonQuote (s : String) : String :=
  "\"" ++ jsonEscape s ++ "\""

mutual
/-- JSON serialization of a value, as produced by Flask's `jsonify` /
`json.dumps`: strings are quoted and escaped, dicts keep insertion order. -/
def jsonRender : PyVal → String
  | PyVal.str s => jsonQuote s
  | PyVal.int n => toString n
  | PyVal.bool b => if b then "true" else "false"
  | PyVal.none => "null"
  | PyVal.list xs => "[" ++ jsonRenderList xs ++ "]"
  | PyVal.dict kvs => "\x7b" ++ jsonRenderDict kvs ++ "\x7d"

/-- comma-separated JSON serializations of list elements. -/
def jsonRenderList : List PyVal → String
  | [] => ""
  | [v] => jsonRender v
  | v :: rest => jsonRender v ++ ", " ++ jsonRenderList rest

/-- comma-separated `"key": value` pairs of a dict's JSON serialization. -/
def jsonRenderDict : List (String × PyVal) → String
  | [] => ""
  | [(k, v)] => jsonQuote k ++ ": " ++ jsonRender v
  | (k, v) :: rest => jsonQuote k ++ ": " ++ jsonRender v ++ ", " ++ jsonRenderDict rest
end

/-- Python `hay.__contains__(needle)` on character lists: `needle` occurs as
a contiguous substring of `hay`. -/
def containsSub : List Char → List Char → Bool
  | [], needle => needle.isEmpty
  | c :: t, needle => needle.isPrefixOf (c :: t) || containsSub t needle

/-- Python `needle in hay` on strings. -/
def strContains (hay needle : String) : Bool :=
  containsSub hay.data needle.data

/-- Python `s.strip('/')`: remove all leading and trailing `'/'`
characters. -/
def pyStrip (s : String) : String :=
  String.mk (((s.data.dropWhile (fun c => c == '/')).reverse.dropWhile
    (fun c => c == '/')).reverse)

/-- Python `s.upper()` (ASCII letters, which covers the method strings the
server compares). -/
def pyUpper (s : String) : String :=
  String.mk (s.data.map Char.toUpper)

/-- ASCII lower-casing, used to express that two content-type strings
differ only in letter case. -/
def asciiLower (s : String) : String :=
  String.mk (s.data.map Char.toLower)

/-- One entry of `mock_data['routes']`: `path`, `method`, optional
`status_code` (`route.get('status_code', 200)`), optional `content_type`
(`route.get('content_type', 'application/json')`), and the `response`
template. -/
structure Route where
  path : String
  method : String
  status_code : Option Nat
  content_type : Option String
  response : PyVal
deriving Repr

/-- The concrete HTTP response triple handed to the transport layer:
status code, mimetype, and body text. -/
structure RenderedResponse where
  statusCode : Nat
  contentType : String
  body : String
deriving Repr, DecidableEq

/-- The method condition of `mock_endpoint`'s match test
(line 25: `route['method'].upper() == request.method`); `observed` is the
method string the handler sees in `request.method`. -/
def methodMatches (ruleMethod observed : String) : Bool :=
  pyUpper ruleMethod == observed

/-- Werkzeug's `Request.method`: the wire-level method normalized to upper
case before the handler observes it. -/
def observedMethod (wire : String) : String :=
  pyUpper wire

/-- The full match test of line 25:
`route['path'].strip('/') in path and route['method'].upper() == request.method`. -/
def routeMatches (r : Route) (observed path : String) : Bool :=
  strContains path (pyStrip r.path) && methodMatches r.method observed

/-- The `for route in mock_data['routes']` loop of lines 24-25: return the
first route whose match test succeeds. -/
def findRoute : List Route → String → String → Option Route
  | [], _, _ => Option.none
  | r :: rs, m, p =>
    if routeMatches r m p then Option.some r else findRoute rs m p

/-- The per-field substitution of line 35:
`v.replace("{data}", str(request.json)) if isinstance(v, str) else v`,
given the already-computed replacement string. -/
def substValue (repl : String) : PyVal → PyVal
  | PyVal.str s => PyVal.str (s.replace "{data}" repl)
  | v => v

/-- The dict comprehension of lines 34-37, evaluated left to right.  Each
string-valued field forces evaluation of `str(request.json)`; when the
request body does not parse as JSON (`jsonBody = none`), `request.json`
raises `BadRequest`, modelled as `Except.error ()`. -/
def substFields (jsonBody : Option PyVal) :
    List (String × PyVal) → Except Unit (List (String × PyVal))
  | [] => Except.ok []
  | (k, PyVal.str s) :: rest =>
    match jsonBody with
    | Option.none => Except.error ()
    | Option.some jb =>
      match substFields jsonBody rest with
      | Except.ok tail =>
        Except.ok ((k, PyVal.str (s.replace "{data}" (pyStr jb))) :: tail)
      | Except.error e => Except.error e
  | (k, v) :: rest =>
    match substFields jsonBody rest with
    | Except.ok tail => Except.ok ((k, v) :: tail)
    | Except.error e => Except.error e

/-- Lines 31-37: substitution applies only when the response template is a
dict and `'{data}' in str(response_body)`; otherwise the template is
returned unchanged. -/
def applySubst (jsonBody : Option PyVal) (body : PyVal) : Except Unit PyVal :=
  match body with
  | PyVal.dict kvs =>
    if strContains (pyStr (PyVal.dict kvs)) "{data}" then
      match substFields jsonBody kvs with
      | Except.ok kvs2 => Except.ok (PyVal.dict kvs2)
      | Except.error e => Except.error e
    else Except.ok (PyVal.dict kvs)
  | b => Except.ok b

/-- Lines 27-46: defaulting of status code and content type, substitution,
and the content-type dispatch (`text/plain` → `str` body, `application/json`
→ `jsonify`, anything else → `str` body with that exact mimetype). -/
def renderRoute (r : Route) (jsonBody : Option PyVal) :
    Except Unit RenderedResponse :=
  match applySubst jsonBody r.response with
  | Except.error e => Except.error e
  | Except.ok body =>
    let status := r.status_code.getD 200
    let ct := r.content_type.getD "application/json"
    if ct == "text/plain" then
      Except.ok ⟨status, "text/plain", pyStr body⟩
    else if ct == "application/json" then
      Except.ok ⟨status, "application/json", jsonRender body⟩
    else
      Except.ok ⟨status, ct, pyStr body⟩

/-- Body of the 404 fallback of lines 48-49:
`jsonify({"error": "Route not found"})`. -/
def notFoundBody : PyVal :=
  PyVal.dict [("error", PyVal.str "Route not found")]

/-- Lines 20-49, the whole request handler: find the first matching route
and render it, or produce the fixed 404 fallback.  The route list (the
global `mock_data`) is threaded through as state and returned alongside the
response, so that non-mutation of the stored rules is part of the
contract. -/
def mock_endpoint (routes : List Route) (method path : String)
    (jsonBody : Option PyVal) :
    Except Unit RenderedResponse × List Route :=
  match findRoute routes method path with
  | Option.some r => (renderRoute r jsonBody, routes)
  | Option.none =>
    (Except.ok ⟨404, "application/json", jsonRender notFoundBody⟩, routes)

/-- A dict template forces evaluation of `str(request.json)` exactly when
the whole-object scan finds `{data}` and at least one field value is a
string.  Derived predicate used to characterize when an unparseable body
aborts the request. -/
def hasStrField : List (String × PyVal) → Bool
  | [] => false
  | (_, PyVal.str _) :: _ => true
  | _ :: rest => hasStrField rest

/-- The response template demands the parsed request body: it is a dict,
the `{data}` gate fires, and some field value is a string. -/
def needsJson : PyVal → Bool
  | PyVal.dict kvs =>
    strContains (pyStr (PyVal.dict kvs)) "{data}" && hasStrField kvs
  | _ => false

/-! ### Sample rules and requests, used to instantiate the theorems -/

/-- The JSON rule of test scenario A. -/
def sampleJsonRoute : Route :=
  ⟨"/test", "GET", Option.some 200, Option.some "application/json",
    PyVal.dict [("message", PyVal.str "test response")]⟩

/-- The text rule of test scenario B. -/
def sampleTextRoute : Route :=
  ⟨"/text", "GET", Option.some 200, Option.some "text/plain",
    PyVal.str "plain text response"⟩

/-- An echo rule whose template contains the `{data}` placeholder. -/
def sampleEchoRoute : Route :=
  ⟨"/echo", "POST", Option.some 200, Option.some "application/json",
    PyVal.dict [("echo", PyVal.str "got {data}")]⟩

/-- A rule whose path fragment strips to the empty string. -/
def sampleSlashRoute : Route :=
  ⟨"///", "GET", Option.none, Option.none, PyVal.str "anything"⟩

/-- A rule with an upper-cased content type, for the case-sensitivity of the
content-type dispatch. -/
def sampleShoutRoute : Route :=
  ⟨"/shout", "GET", Option.some 201, Option.some "TEXT/PLAIN",
    PyVal.str "loud"⟩

/-! ### Helper lemmas -/

/-- `findRoute` misses exactly when every rule fails the match test. -/
theorem findRoute_eq_none_iff (rs : List Route) (m p : String) :
    findRoute rs m p = Option.none ↔ ∀ r ∈ rs, routeMatches r m p = false := by
  induction rs with
  | nil => simp [findRoute]
  | cons a rs ih =>
    cases ha : routeMatches a m p with
    | true => simp [findRoute, ha]
    | false => simp [findRoute, ha, ih]

/-- A hit of `findRoute` is the first rule passing the match test: it sits
at an index where it matches, and every earlier rule fails. -/
theorem findRoute_some_spec (rs : List Route) (m p : String) (r : Route)
    (h : findRoute rs m p = Option.some r) :
    ∃ i, ∃ hi : i < rs.length, rs.get ⟨i, hi⟩ = r ∧
      routeMatches r m p = true ∧
      ∀ j, (hj : j < rs.length) → j < i →
        routeMatches (rs.get ⟨j, hj⟩) m p = false := by
  induction rs with
  | nil => simp [findRoute] at h
  | cons a rs ih =>
    cases ha : routeMatches a m p with
    | true =>
      simp only [findRoute, ha, if_true, Option.some.injEq] at h
      subst h
      exact ⟨0, by simp, rfl, ha, fun j hj hj0 => absurd hj0 (Nat.not_lt_zero j)⟩
    | false =>
      simp only [findRoute, ha, Bool.false_eq_true, if_false] at h
      obtain ⟨i, hi, hget, hmatch, hprev⟩ := ih h
      refine ⟨i + 1, by simpa using Nat.succ_lt_succ hi, by simpa using hget,
        hmatch, ?_⟩
      intro j hj hji
      cases j with
      | zero => simpa using ha
      | succ j =>
        have hj' : j < rs.length := by simpa using hj
        simpa using hprev j hj' (Nat.lt_of_succ_lt_succ hji)

/-- A matched rule is one of the stored rules. -/
theorem findRoute_mem (rs : List Route) (m p : String) (r : Route)
    (h : findRoute rs m p = Option.some r) : r ∈ rs := by
  obtain ⟨i, hi, hget, -, -⟩ := findRoute_some_spec rs m p r h
  exact hget ▸ List.get_mem rs i hi

/-- The handler returns the rule list it was given, untouched. -/
theorem mock_endpoint_state (routes : List Route) (m p : String)
    (jb : Option PyVal) : (mock_endpoint routes m p jb).2 = routes := by
  unfold mock_endpoint
  cases findRoute routes m p <;> rfl

/-- The empty needle is a substring of every haystack
(Python: `"" in s` is `True`). -/
theorem containsSub_nil (l : List Char) : containsSub l [] = true := by
  cases l <;> rfl

/-- With a parsed request body, the field substitution never fails and maps
`substValue` over the dict's entries. -/
theorem substFields_some (jb : PyVal) (kvs : List (String × PyVal)) :
    substFields (Option.some jb) kvs =
      Except.ok (kvs.map (fun kv => (kv.1, substValue (pyStr jb) kv.2))) := by
  induction kvs with
  | nil => rfl
  | cons kv rest ih =>
    obtain ⟨k, v⟩ := kv
    cases v <;> simp [substFields, ih, substValue]

/-- Without a parsed request body, the field substitution aborts exactly
when some field value is a string. -/
theorem substFields_none_iff (kvs : List (String × PyVal)) :
    substFields Option.none kvs = Except.error () ↔ hasStrField kvs = true := by
  induction kvs with
  | nil => simp [substFields, hasStrField]
  | cons kv rest ih =>
    obtain ⟨k, v⟩ := kv
    cases v <;> simp [substFields, hasStrField, ih] <;>
      cases h : substFields Option.none rest <;> simp_all

/-- The empty string is contained in every string. -/
theorem strContains_empty (hay : String) : strContains hay "" = true :=
  containsSub_nil hay.data

/-- With no parsed request body, the substitution step aborts exactly when
the template demands the body (dict, `{data}` gate fires, some string
field). -/
theorem applySubst_none_error_iff (body : PyVal) :
    applySubst Option.none body = Except.error () ↔
      needsJson body = true := by
  cases body with
  | dict kvs =>
    simp only [applySubst, needsJson]
    by_cases hg : strContains (pyStr (PyVal.dict kvs)) "{data}" = true
    · simp only [hg, if_true, Bool.true_and]
      cases hs : substFields Option.none kvs with
      | ok kvs2 =>
        have h0 := substFields_none_iff kvs
        rw [hs] at h0
        simp only [reduceCtorEq, false_iff, Bool.not_eq_true] at h0
        simp [h0]
      | error e =>
        cases e
        simp [(substFields_none_iff kvs).mp hs]
    · simp only [Bool.not_eq_true] at hg
      simp [hg]
  | str s => simp [applySubst, needsJson]
  | int n => simp [applySubst, needsJson]
  | bool b => simp [applySubst, needsJson]
  | none => simp [applySubst, needsJson]
  | list xs => simp [applySubst, needsJson]

/-- Rendering aborts exactly when the substitution step aborts: the
content-type dispatch itself always produces a response. -/
theorem renderRoute_error_iff_subst (r : Route) (jb : Option PyVal) :
    renderRoute r jb = Except.error () ↔
      applySubst jb r.response = Except.error () := by
  unfold renderRoute
  cases hs : applySubst jb r.response with
  | error e => cases e; simp
  | ok body =>
    dsimp only
    constructor
    · intro hc
      split_ifs at hc
    · intro hc
      exact absurd hc (by simp)

/-- With no parsed request body, rendering a rule aborts exactly when its
template demands the body. -/
theorem renderRoute_error_iff (r : Route) :
    renderRoute r Option.none = Except.error () ↔
      needsJson r.response = true :=
  (renderRoute_error_iff_subst r Option.none).trans
    (applySubst_none_error_iff r.response)

/-! ### The claims -/

/-- **C1** For every ordered sequence of rules and every request method and
path, the matcher returns the first rule in declaration order whose
path fragment, stripped of leading/trailing `/`, is a substring of the path
and whose method matches the request method; it never returns a
later-declared satisfying rule when an earlier one satisfies the predicate,
and it reports no match exactly when no rule satisfies both conditions. -/
theorem matcher_returns_first_satisfying_rule (routes : List Route)
    (m p : String) :
    (findRoute routes m p = Option.none ↔
      ∀ r ∈ routes, routeMatches r m p = false) ∧
    (∀ r, findRoute routes m p = Option.some r →
      ∃ i, ∃ hi : i < routes.length, routes.get ⟨i, hi⟩ = r ∧
        routeMatches r m p = true ∧
        ∀ j, (hj : j < routes.length) → j < i →
          routeMatches (routes.get ⟨j, hj⟩) m p = false) :=
  ⟨findRoute_eq_none_iff routes m p,
   fun r h => findRoute_some_spec routes m p r h⟩

/-- Witness for C1: with two stored rules of which only the second matches
`GET test`, the matcher returns the second, at index 1, with the earlier
rule failing the predicate. -/
theorem matcher_returns_first_satisfying_rule_w :
    ∃ i, ∃ hi : i < [sampleTextRoute, sampleJsonRoute].length,
      [sampleTextRoute, sampleJsonRoute].get ⟨i, hi⟩ = sampleJsonRoute ∧
      routeMatches sampleJsonRoute "GET" "test" = true ∧
      ∀ j, (hj : j < [sampleTextRoute, sampleJsonRoute].length) → j < i →
        routeMatches ([sampleTextRoute, sampleJsonRoute].get ⟨j, hj⟩)
          "GET" "test" = false :=
  (matcher_returns_first_satisfying_rule
    [sampleTextRoute, sampleJsonRoute] "GET" "test").2 sampleJsonRoute rfl

/-- **C2** Placeholder substitution occurs only when the response template
is a key-value mapping and `{data}` occurs in the string representation of
the entire mapping; then every occurrence of `{data}` in every string-valued
top-level field is replaced with the string (debug) representation of the
parsed request body, non-string values are unchanged; a non-mapping template
is never substituted. -/
theorem placeholder_substitution_spec (jb : PyVal) (body : PyVal) :
    ((∀ kvs, body ≠ PyVal.dict kvs) →
      applySubst (Option.some jb) body = Except.ok body) ∧
    (∀ kvs, body = PyVal.dict kvs →
      applySubst (Option.some jb) body = Except.ok
        (if strContains (pyStr body) "{data}" then
          PyVal.dict (kvs.map (fun kv => (kv.1, substValue (pyStr jb) kv.2)))
        else body)) := by
  constructor
  · intro hnd
    cases body with
    | dict kvs => exact absurd rfl (hnd kvs)
    | str s => rfl
    | int n => rfl
    | bool b => rfl
    | none => rfl
    | list xs => rfl
  · rintro kvs rfl
    simp only [applySubst, substFields_some]
    by_cases hg : strContains (pyStr (PyVal.dict kvs)) "{data}" = true
    · simp [hg]
    · simp only [Bool.not_eq_true] at hg
      simp [hg]

/-- Witness for C2: an echo template containing `{data}` against the parsed
body `{'x': 1}` rewrites its string field. -/
theorem placeholder_substitution_spec_w :
    applySubst (Option.some (PyVal.dict [("x", PyVal.int 1)]))
        (PyVal.dict [("echo", PyVal.str "got {data}")]) =
      Except.ok
        (if strContains (pyStr (PyVal.dict [("echo", PyVal.str "got {data}")]))
            "{data}" then
          PyVal.dict ([("echo", PyVal.str "got {data}")].map
            (fun kv =>
              (kv.1, substValue (pyStr (PyVal.dict [("x", PyVal.int 1)])) kv.2)))
        else PyVal.dict [("echo", PyVal.str "got {data}")]) :=
  (placeholder_substitution_spec (PyVal.dict [("x", PyVal.int 1)])
    (PyVal.dict [("echo", PyVal.str "got {data}")])).2 _ rfl

/-- **C3** For every request whose method and path match no rule, the
dispatcher returns exactly status 404, content type `application/json`, and
the JSON body `{"error": "Route not found"}`. -/
theorem unmatched_route_yields_404 (routes : List Route) (m p : String)
    (jb : Option PyVal) (h : ∀ r ∈ routes, routeMatches r m p = false) :
    (mock_endpoint routes m p jb).1 =
      Except.ok ⟨404, "application/json", jsonRender notFoundBody⟩ ∧
    jsonRender notFoundBody = "\x7b\"error\": \"Route not found\"\x7d" := by
  refine ⟨?_, rfl⟩
  unfold mock_endpoint
  rw [(findRoute_eq_none_iff routes m p).mpr h]

/-- Witness for C3: `GET nonexistent` against the sample rule set. -/
theorem unmatched_route_yields_404_w :
    (mock_endpoint [sampleJsonRoute] "GET" "nonexistent" Option.none).1 =
      Except.ok ⟨404, "application/json", jsonRender notFoundBody⟩ ∧
    jsonRender notFoundBody = "\x7b\"error\": \"Route not found\"\x7d" :=
  unmatched_route_yields_404 [sampleJsonRoute] "GET" "nonexistent" Option.none
    (by decide)

/-- **C4, counterexample** A matched rule whose template triggers
substitution, with a request body that does not parse as JSON: the handler
does not render a response from the raw body — it aborts
(`request.json` raises `BadRequest`), contradicting the claim that the
renderer degrades gracefully and always yields a response. -/
theorem malformed_body_graceful_cex :
    (mock_endpoint [sampleEchoRoute] "POST" "echo" Option.none).1 =
      Except.error () := rfl

/-- **C4, amended** With a request body that does not parse as JSON, the
handler aborts with the framework's `BadRequest` exactly when the matched
rule's template demands the body (a dict passing the `{data}` gate with at
least one string-valued field); in every other case the unparseable body is
never consulted and a well-formed response is produced. -/
theorem malformed_body_aborts_iff (routes : List Route) (m p : String) :
    (mock_endpoint routes m p Option.none).1 = Except.error () ↔
      ∃ r, findRoute routes m p = Option.some r ∧
        needsJson r.response = true := by
  unfold mock_endpoint
  cases hf : findRoute routes m p with
  | none => simp
  | some r =>
    dsimp only
    rw [renderRoute_error_iff r]
    constructor
    · intro h
      exact ⟨r, rfl, h⟩
    · rintro ⟨r', hr', hn⟩
      obtain rfl := Option.some.inj hr'
      exact hn

/-- Witness for C4's amended theorem: the echo rule with an unparseable
body aborts. -/
theorem malformed_body_aborts_iff_w :
    (mock_endpoint [sampleEchoRoute] "POST" "echo" Option.none).1 =
      Except.error () :=
  (malformed_body_aborts_iff [sampleEchoRoute] "POST" "echo").mpr
    ⟨sampleEchoRoute, rfl, rfl⟩

/-- **C5** The matcher's method condition holds exactly when the rule's
method upper-cased equals the request's (wire) method upper-cased; the
handler observes the transport-normalized method, so a lower-case wire
method satisfies a rule declared upper-case. -/
theorem method_compare_case_insensitive (ruleMethod wire : String) :
    methodMatches ruleMethod (observedMethod wire) = true ↔
      pyUpper ruleMethod = pyUpper wire := by
  unfold methodMatches observedMethod
  exact beq_iff_eq

/-- Witness for C5: a wire method `get` satisfies a rule declared `GET`. -/
theorem method_compare_case_insensitive_w :
    methodMatches "GET" (observedMethod "get") = true :=
  (method_compare_case_insensitive "GET" "get").mpr rfl

/-- **C6** Rendering dispatches on the content type: `text/plain` emits the
generic string representation with a `text/plain` header; `application/json`
(the default when the rule omits a content type) emits the JSON
serialization, so a plain-string body is emitted quoted; any other content
type emits the generic string representation under that exact header; in
every branch the status is the rule's status code, defaulting to 200. -/
theorem content_type_dispatch (r : Route) (jb : Option PyVal) (body : PyVal)
    (h : applySubst jb r.response = Except.ok body) :
    ∃ resp, renderRoute r jb = Except.ok resp ∧
      resp.statusCode = r.status_code.getD 200 ∧
      (r.content_type.getD "application/json" = "text/plain" →
        resp.contentType = "text/plain" ∧ resp.body = pyStr body) ∧
      (r.content_type.getD "application/json" = "application/json" →
        resp.contentType = "application/json" ∧ resp.body = jsonRender body ∧
        ∀ s, body = PyVal.str s → resp.body = jsonQuote s) ∧
      (∀ ct, r.content_type.getD "application/json" = ct →
        ct ≠ "text/plain" → ct ≠ "application/json" →
        resp.contentType = ct ∧ resp.body = pyStr body) := by
  unfold renderRoute
  rw [h]
  dsimp only
  by_cases h1 : r.content_type.getD "application/json" = "text/plain"
  · rw [if_pos (beq_iff_eq.mpr h1)]
    refine ⟨_, rfl, rfl, fun _ => ⟨rfl, rfl⟩,
      fun h2 => absurd (h1.symm.trans h2) (by decide),
      fun ct hct hctp _ => absurd (hct.symm.trans h1) hctp⟩
  · rw [if_neg (by simpa using h1)]
    by_cases h2 : r.content_type.getD "application/json" = "application/json"
    · rw [if_pos (beq_iff_eq.mpr h2)]
      refine ⟨_, rfl, rfl, fun hc => absurd (hc.symm.trans h2) (by decide),
        fun _ => ⟨rfl, rfl, fun s hs => by rw [hs]; rfl⟩,
        fun ct hct _ hctj => absurd (hct.symm.trans h2) hctj⟩
    · rw [if_neg (by simpa using h2)]
      refine ⟨_, rfl, rfl, fun hc => absurd hc h1, fun hc => absurd hc h2,
        fun ct hct _ _ => ⟨hct, rfl⟩⟩

/-- Witness for C6: the plain-text sample rule renders its string body with
a `text/plain` header and status 200. -/
theorem content_type_dispatch_w :
    ∃ resp, renderRoute sampleTextRoute Option.none = Except.ok resp ∧
      resp.statusCode = sampleTextRoute.status_code.getD 200 ∧
      (sampleTextRoute.content_type.getD "application/json" = "text/plain" →
        resp.contentType = "text/plain" ∧
        resp.body = pyStr (PyVal.str "plain text response")) ∧
      (sampleTextRoute.content_type.getD "application/json" =
          "application/json" →
        resp.contentType = "application/json" ∧
        resp.body = jsonRender (PyVal.str "plain text response") ∧
        ∀ s, PyVal.str "plain text response" = PyVal.str s →
          resp.body = jsonQuote s) ∧
      (∀ ct, sampleTextRoute.content_type.getD "application/json" = ct →
        ct ≠ "text/plain" → ct ≠ "application/json" →
        resp.contentType = ct ∧
        resp.body = pyStr (PyVal.str "plain text response")) :=
  content_type_dispatch sampleTextRoute Option.none
    (PyVal.str "plain text response") rfl

/-- **C7** A rule whose path fragment strips to the empty string passes the
substring condition against every path, hence matches every request whose
method also matches; this is the behavior of the code, preserved as such. -/
theorem empty_fragment_matches_every_path (r : Route) (m p : String)
    (h : pyStrip r.path = "") :
    strContains p (pyStrip r.path) = true ∧
    (methodMatches r.method m = true → routeMatches r m p = true) := by
  have hc : strContains p (pyStrip r.path) = true := by
    rw [h]; exact strContains_empty p
  exact ⟨hc, fun hm => by unfold routeMatches; rw [hc, hm]; rfl⟩

/-- Witness for C7: the rule with path `///` strips to the empty fragment
and matches an arbitrary path under a matching method. -/
theorem empty_fragment_matches_every_path_w :
    strContains "totally/unrelated" (pyStrip sampleSlashRoute.path) = true ∧
    (methodMatches sampleSlashRoute.method "GET" = true →
      routeMatches sampleSlashRoute "GET" "totally/unrelated" = true) :=
  empty_fragment_matches_every_path sampleSlashRoute "GET" "totally/unrelated"
    rfl

/-- **C8** Rendering is deterministic: re-running the handler on the state
left by a first run, with the identical request, yields the identical
(status, content type, body) outcome and the identical state — no hidden
state, randomness, or clock dependency. -/
theorem rendering_deterministic (routes : List Route) (m p : String)
    (jb : Option PyVal) (res : Except Unit RenderedResponse)
    (st : List Route) (h : mock_endpoint routes m p jb = (res, st)) :
    mock_endpoint st m p jb = (res, st) := by
  have hst : st = routes := by
    have h2 := mock_endpoint_state routes m p jb
    rw [h] at h2
    exact h2
  subst hst
  exact h

/-- Witness for C8: re-running the sample JSON request reproduces the exact
response. -/
theorem rendering_deterministic_w :
    mock_endpoint [sampleJsonRoute] "GET" "test" Option.none =
      (Except.ok ⟨200, "application/json",
        jsonRender (PyVal.dict [("message", PyVal.str "test response")])⟩,
       [sampleJsonRoute]) :=
  rendering_deterministic [sampleJsonRoute] "GET" "test" Option.none _ _ rfl

/-- **C9** Rendering leaves the stored rules unchanged: the handler returns
its rule state as it received it, and a matched rule is one of those
unchanged stored rules (substitution builds a fresh mapping rather than
updating the rule). -/
theorem rendering_preserves_stored_rules (routes : List Route)
    (m p : String) (jb : Option PyVal) :
    (mock_endpoint routes m p jb).2 = routes ∧
    ∀ r, findRoute routes m p = Option.some r →
      r ∈ (mock_endpoint routes m p jb).2 := by
  refine ⟨mock_endpoint_state routes m p jb, fun r h => ?_⟩
  rw [mock_endpoint_state routes m p jb]
  exact findRoute_mem routes m p r h

/-- Witness for C9: after handling the sample JSON request, the matched
rule is still among the stored rules, which are returned unchanged. -/
theorem rendering_preserves_stored_rules_w :
    sampleJsonRoute ∈
      (mock_endpoint [sampleJsonRoute] "GET" "test" Option.none).2 :=
  (rendering_preserves_stored_rules [sampleJsonRoute] "GET" "test"
    Option.none).2 sampleJsonRoute rfl

/-- **C10** Content-type dispatch compares strings case-sensitively: a
content type differing from the two specially-handled ones only in letter
case takes the opaque passthrough branch — generic string serialization
under that exact header — not the text or JSON branch. -/
theorem content_type_compare_case_sensitive (r : Route) (jb : Option PyVal)
    (body : PyVal) (ct : String)
    (h : applySubst jb r.response = Except.ok body)
    (hct : r.content_type = Option.some ct)
    (_hcase : asciiLower ct = "text/plain" ∨ asciiLower ct = "application/json")
    (h1 : ct ≠ "text/plain") (h2 : ct ≠ "application/json") :
    renderRoute r jb =
      Except.ok ⟨r.status_code.getD 200, ct, pyStr body⟩ := by
  unfold renderRoute
  rw [h]
  dsimp only
  rw [hct]
  simp only [Option.getD_some]
  rw [if_neg (by simpa using h1), if_neg (by simpa using h2)]

/-- Witness for C10: the rule declaring content type `TEXT/PLAIN` renders
through the passthrough branch with that exact header. -/
theorem content_type_compare_case_sensitive_w :
    renderRoute sampleShoutRoute Option.none =
      Except.ok ⟨sampleShoutRoute.status_code.getD 200, "TEXT/PLAIN",
        pyStr (PyVal.str "loud")⟩ :=
  content_type_compare_case_sensitive sampleShoutRoute Option.none
    (PyVal.str "loud") "TEXT/PLAIN" rfl rfl (Or.inl rfl)
    (by decide) (by decide)
